import Mathlib

/-
  Verification of the Python-Data-Visualization repository.

  The core under study is the pair of functions `auto_generate_plots`
  (the plot planner, src lines 70-108) and `generate_pdf_report`
  (the pagination engine, src lines 110-132), together with the
  menu-driven single-plot mode and the report/cleanup flow of `main`
  (src lines 134-206).

  The embedding is shallow: a dataset is reduced to its schema (an
  ordered list of column names with their classified kind, mirroring
  `select_dtypes(include=np.number)` / `select_dtypes(include='object')`),
  the planner is the pure function computing the ordered list of plot
  requests the Python code issues (with the artifact path each call
  saves to), and the pagination engine is the exact cursor loop of
  `generate_pdf_report` over ReportLab's letter page (612 x 792), with
  each drawing primitive recorded as a `DrawOp`.  Rendering and file
  removal are fallible external collaborators, modelled as oracles
  returning `Except`; an uncaught Python exception is an `Except.error`
  that aborts the enclosing loop, as in the source.
-/

namespace DataViz

/-- Classification of a dataframe column, mirroring the two
`select_dtypes` calls of src lines 74-75: numeric dtypes, object
(categorical) dtypes, and everything else (silently excluded). -/
inductive ColKind where
  | numerical
  | categorical
  | other
deriving DecidableEq, Repr

/-- A dataset schema: the ordered column names with their classified
kinds.  This is the only part of the dataframe the planner inspects. -/
abbrev Schema := List (String × ColKind)

/-- `df.select_dtypes(include=np.number).columns.tolist()` (src line 74):
the numerical column names in schema order. -/
def numerical_cols (schema : Schema) : List String :=
  (schema.filter (fun c => c.2 = ColKind.numerical)).map Prod.fst

/-- `df.select_dtypes(include='object').columns.tolist()` (src line 75):
the categorical column names in schema order. -/
def categorical_cols (schema : Schema) : List String :=
  (schema.filter (fun c => c.2 = ColKind.categorical)).map Prod.fst

/-- The chart kinds the program can render (src lines 17-68). -/
inductive PlotKind where
  | histogram
  | scatter
  | correlationHeatmap
  | pairplot
  | pieChart
deriving DecidableEq, Repr

/-- One plot request issued by the planner: the chart kind, the columns
it covers, and the artifact file name the Python code saves it under. -/
structure PlotRequest where
  kind : PlotKind
  columns : List String
  artifact_name : String
deriving DecidableEq, Repr

/-- `auto_generate_plots` (src lines 70-108): the ordered list of plot
requests the function issues, with the artifact path of each request.
The structure mirrors the source exactly: the histogram loop, the
guarded double scatter loop (`range(i+1, len)` becomes
`List.range' (i+1) (len - (i+1))`), the heatmap and pairplot blocks
(each guarded by `if numerical_cols:`), and the pie-chart loop.
The heatmap and pairplot are rendered from the whole dataframe; the
columns they cover are the numerical ones. -/
def auto_generate_plots (schema : Schema) : List PlotRequest :=
  (if numerical_cols schema ≠ [] then
    (numerical_cols schema).map (fun col =>
      ⟨PlotKind.histogram, [col], "histogram_" ++ col ++ ".png"⟩)
  else []) ++
  (if 1 < (numerical_cols schema).length then
    (List.range (numerical_cols schema).length).flatMap (fun i =>
      (List.range' (i + 1) ((numerical_cols schema).length - (i + 1))).map (fun j =>
        ⟨PlotKind.scatter,
         [(numerical_cols schema).getD i "", (numerical_cols schema).getD j ""],
         "scatter_" ++ (numerical_cols schema).getD i "" ++ "vs" ++
           (numerical_cols schema).getD j "" ++ ".png"⟩))
  else []) ++
  (if numerical_cols schema ≠ [] then
    [⟨PlotKind.correlationHeatmap, numerical_cols schema, "correlation_heatmap.png"⟩]
  else []) ++
  (if numerical_cols schema ≠ [] then
    [⟨PlotKind.pairplot, numerical_cols schema, "pairplot.png"⟩]
  else []) ++
  (if categorical_cols schema ≠ [] then
    (categorical_cols schema).map (fun col =>
      ⟨PlotKind.pieChart, [col], "pie_chart_" ++ col ++ ".png"⟩)
  else [])

/-- A drawing primitive recorded on a PDF page: `text s x y` is
`c.drawString(x, y, s)`, `image p x y w h` is
`c.drawImage(p, x, y, width=w, height=h)`. -/
inductive DrawOp where
  | text (s : String) (x y : Int)
  | image (path : String) (x y w h : Int)
deriving DecidableEq, Repr

/-- The per-page title header: `c.drawString(100, height - 100,
"Data Visualization Report")` on the letter page (height 792),
src lines 118 and 129. -/
def headerOp : DrawOp := DrawOp.text "Data Visualization Report" 100 (792 - 100)

/-- The mutable canvas state of `generate_pdf_report`: the pages already
closed by `showPage()`, the operations drawn on the current page, and
the `y_position` cursor. -/
structure CanvasState where
  finishedPages : List (List DrawOp)
  currentPage : List DrawOp
  y_position : Int
deriving DecidableEq, Repr

/-- One iteration of the artifact loop of `generate_pdf_report`
(src lines 122-130): draw the image at (100, y_position) with width 400
and height 300, decrement the cursor by 350, and strictly after the
placement check `y_position < 100`; if so, `showPage()`, redraw the
header, and reset the cursor to `height - 150`. -/
def placeArtifact (st : CanvasState) (plot_path : String) : CanvasState :=
  let drawn := st.currentPage ++ [DrawOp.image plot_path 100 st.y_position 400 300]
  let y := st.y_position - 350
  if y < 100 then
    { finishedPages := st.finishedPages ++ [drawn]
      currentPage := [headerOp]
      y_position := 792 - 150 }
  else
    { finishedPages := st.finishedPages, currentPage := drawn, y_position := y }

/-- `generate_pdf_report` (src lines 110-132): page 1 opens with the
header and cursor `height - 150`; the artifact loop runs; `c.save()`
emits the pending page (which always holds at least the header). -/
def generate_pdf_report (plot_paths : List String) : List (List DrawOp) :=
  let init : CanvasState :=
    { finishedPages := [], currentPage := [headerOp], y_position := 792 - 150 }
  let final := plot_paths.foldl placeArtifact init
  final.finishedPages ++ [final.currentPage]

/-- Abbreviation for the image drawing op at the fixed geometry of the
report: left margin 100, width 400, height 300. -/
def imgOp (p : String) (y : Int) : DrawOp := DrawOp.image p 100 y 400 300

/-- Closed-form page layout, written from the spec (section 4.4): pages
carry the header plus the artifacts placed at cursor positions 642 and
292; every second artifact trips the `< 100` threshold, so pages hold at
most two artifacts and a trailing artifact that trips the threshold
still opens a fresh header-only page. -/
def layoutFrom (cur : List DrawOp) : List String → List (List DrawOp)
  | [] => [cur]
  | [p] => [cur ++ [imgOp p 642]]
  | p :: q :: rest => (cur ++ [imgOp p 642, imgOp q 292]) :: layoutFrom [headerOp] rest

/-- The whole expected document for a list of artifact paths, written
from the spec: page 1 opens with the header at cursor 642. -/
def expectedReport (plot_paths : List String) : List (List DrawOp) :=
  layoutFrom [headerOp] plot_paths

/-- Number of images drawn on one page. -/
def imagesOn (page : List DrawOp) : Nat :=
  page.countP (fun op => match op with | DrawOp.image _ _ _ _ _ => true | _ => false)

/-- The index pairs `(i, j)` with `i < j < n` in the iteration order of
the scatter double loop: outer loop over `i`, inner loop over `j > i`. -/
def pairsLT (n : Nat) : List (Nat × Nat) :=
  (List.range n).flatMap (fun i =>
    (List.range' (i + 1) (n - (i + 1))).map (fun j => (i, j)))


/-! ## Error-handling models: renderer, file removal, single-request mode -/

/-- A renderer failure: in the source an uncaught Python exception
raised inside one of the `plot_*` calls. -/
structure RenderError where
  msg : String
deriving Repr

/-- The rendering loop of `auto_generate_plots` (src lines 79-106) with
the chart renderer as a fallible oracle: each request is rendered in
plan order and its artifact path collected; an exception aborts the
whole loop (there is no try/except in the source), so the first error
propagates and no path list is produced. -/
def renderAll (render : PlotRequest → Except RenderError Unit) :
    List PlotRequest → Except RenderError (List String)
  | [] => Except.ok []
  | r :: rs =>
    match render r with
    | Except.error e => Except.error e
    | Except.ok _ =>
      match renderAll render rs with
      | Except.error e => Except.error e
      | Except.ok ps => Except.ok (r.artifact_name :: ps)

/-- The cleanup loop of `main` choice 3 (src lines 202-203):
`os.remove` on each path in order, with removal failures modelled as an
oracle; an `os.remove` exception aborts the loop (no try/except), so the
result is the list of paths actually removed together with the
propagated error, if any. -/
def removeAll (removeFile : String → Except String Unit) :
    List String → List String × Option String
  | [] => ([], none)
  | p :: ps =>
    match removeFile p with
    | Except.error e => ([], some e)
    | Except.ok _ =>
      let r := removeAll removeFile ps
      (p :: r.1, r.2)

/-- Observable outcome of `main` choice 3: the finalized document (if
any), the artifact files removed, and the uncaught exception (if any). -/
structure Choice3Result where
  document : Option (List (List DrawOp))
  removed : List String
  err : Option String
deriving Repr

/-- `main` choice 3 (src lines 196-203): render all plots of the auto
plan, generate the PDF report from the collected paths, then remove the
artifact files.  A render failure propagates before the report is
generated; a removal failure propagates after it. -/
def main_choice3 (render : PlotRequest → Except RenderError Unit)
    (removeFile : String → Except String Unit) (schema : Schema) : Choice3Result :=
  match renderAll render (auto_generate_plots schema) with
  | Except.error e => ⟨none, [], some e.msg⟩
  | Except.ok paths =>
    ⟨some (generate_pdf_report paths), (removeAll removeFile paths).1,
     (removeAll removeFile paths).2⟩

/-- A single explicit plot request of `main` choice 2
(src lines 155-194). -/
inductive SpecificPlot where
  | histogram (column : String)
  | scatter (x_col y_col : String)
  | pairplot
  | heatmap
  | pieChart (column : String)
deriving DecidableEq, Repr

/-- `column in df.columns` (src lines 167, 175, 188): membership of a
name among all schema columns, of any dtype. -/
def hasColumn (schema : Schema) (c : String) : Bool :=
  schema.any (fun p => p.1 = c)

/-- The single-request mode of `main` choice 2 (src lines 155-194): the
plot produced for one explicit request, or the exact message printed
when a named column is missing (in which case no plot function is
called).  Pairplot and heatmap name no columns and are generated
unconditionally, covering the numerical columns. -/
def specific_plot (schema : Schema) : SpecificPlot → Except String PlotRequest
  | SpecificPlot.histogram c =>
    if hasColumn schema c then
      Except.ok ⟨PlotKind.histogram, [c], "histogram_" ++ c ++ ".png"⟩
    else Except.error "Column not found."
  | SpecificPlot.scatter x y =>
    if hasColumn schema x && hasColumn schema y then
      Except.ok ⟨PlotKind.scatter, [x, y], "scatter_" ++ x ++ "vs" ++ y ++ ".png"⟩
    else Except.error "One or both columns not found."
  | SpecificPlot.pairplot =>
    Except.ok ⟨PlotKind.pairplot, numerical_cols schema, "pairplot.png"⟩
  | SpecificPlot.heatmap =>
    Except.ok ⟨PlotKind.correlationHeatmap, numerical_cols schema, "correlation_heatmap.png"⟩
  | SpecificPlot.pieChart c =>
    if hasColumn schema c then
      Except.ok ⟨PlotKind.pieChart, [c], "pie_chart_" ++ c ++ ".png"⟩
    else Except.error "Column not found."

/-- A two-numerical-column schema whose auto plan has exactly five
requests: two histograms, one scatter, heatmap, pairplot. -/
def schemaAI : Schema := [("age", ColKind.numerical), ("income", ColKind.numerical)]

/-- A renderer that fails exactly on scatter requests. -/
def badRender : PlotRequest → Except RenderError Unit := fun r =>
  if r.kind = PlotKind.scatter then Except.error ⟨"RenderError"⟩ else Except.ok ()

/-- A renderer that always succeeds. -/
def okRender : PlotRequest → Except RenderError Unit := fun _ => Except.ok ()

/-- A file remover that always succeeds. -/
def okRemove : String → Except String Unit := fun _ => Except.ok ()

/-- A file remover that always fails. -/
def badRemove : String → Except String Unit := fun _ => Except.error "PermissionError"

/-- The naming discipline claimed by the spec for auto-generated
artifacts (with the `.png` extension the source appends):
`{kind}_{column}` for single-column requests, `{kind}_{x}vs{y}` for
scatter pairs, fixed literals for heatmap and pairplot. -/
def nameMatches (r : PlotRequest) : Prop :=
  match r.kind with
  | PlotKind.histogram =>
      ∃ c, r.columns = [c] ∧ r.artifact_name = "histogram_" ++ c ++ ".png"
  | PlotKind.scatter =>
      ∃ x y, r.columns = [x, y] ∧ r.artifact_name = "scatter_" ++ x ++ "vs" ++ y ++ ".png"
  | PlotKind.correlationHeatmap => r.artifact_name = "correlation_heatmap.png"
  | PlotKind.pairplot => r.artifact_name = "pairplot.png"
  | PlotKind.pieChart =>
      ∃ c, r.columns = [c] ∧ r.artifact_name = "pie_chart_" ++ c ++ ".png"

/-- The first two characters of an artifact name, used to tell the five
naming shapes apart. -/
def nameKey (s : String) : Char × Char := (s.data.getD 0 ' ', s.data.getD 1 ' ')

/-- An all-numerical schema on which the scatter naming scheme collides:
the pairs (a, bvsc) and (avsb, c) both produce `scatter_avsbvsc.png`. -/
def schemaVS : Schema :=
  [("a", ColKind.numerical), ("avsb", ColKind.numerical),
   ("bvsc", ColKind.numerical), ("c", ColKind.numerical)]

/-! ## Pagination engine: loop characterization -/

/-- `c.save()` view of the canvas: the closed pages followed by the
pending page (which always holds at least the header). -/
def finalizeCanvas (st : CanvasState) : List (List DrawOp) :=
  st.finishedPages ++ [st.currentPage]

theorem foldl_place (cur : List DrawOp) (paths : List String) :
    ∀ fin : List (List DrawOp),
      finalizeCanvas (paths.foldl placeArtifact ⟨fin, cur, 642⟩) = fin ++ layoutFrom cur paths := by
  induction cur, paths using layoutFrom.induct with
  | case1 cur => intro fin; simp [finalizeCanvas, layoutFrom]
  | case2 cur p =>
      intro fin
      simp [finalizeCanvas, layoutFrom, placeArtifact, imgOp]
  | case3 cur p q rest ih =>
      intro fin
      have h1 : placeArtifact ⟨fin, cur, 642⟩ p
          = ⟨fin, cur ++ [imgOp p 642], 292⟩ := by
        simp [placeArtifact, imgOp]
      have h2 : placeArtifact ⟨fin, cur ++ [imgOp p 642], 292⟩ q
          = ⟨fin ++ [cur ++ [imgOp p 642, imgOp q 292]], [headerOp], 642⟩ := by
        simp [placeArtifact, imgOp]
      simp only [List.foldl_cons, h1, h2]
      rw [ih]
      simp [layoutFrom]

/-- The pagination engine is exactly the closed-form layout: pages of at
most two artifacts at cursor positions 642 and 292, a fresh header-only
page after every second artifact. -/
theorem generate_eq_expected (paths : List String) :
    generate_pdf_report paths = expectedReport paths := by
  have h : (⟨[], [headerOp], 792 - 150⟩ : CanvasState) = ⟨[], [headerOp], 642⟩ := by norm_num
  calc generate_pdf_report paths
      = finalizeCanvas (paths.foldl placeArtifact ⟨[], [headerOp], 792 - 150⟩) := rfl
    _ = finalizeCanvas (paths.foldl placeArtifact ⟨[], [headerOp], 642⟩) := by rw [h]
    _ = [] ++ layoutFrom [headerOp] paths := foldl_place [headerOp] paths []
    _ = expectedReport paths := by simp [expectedReport]

theorem layoutFrom_length (cur : List DrawOp) (paths : List String) :
    (layoutFrom cur paths).length = paths.length / 2 + 1 := by
  induction cur, paths using layoutFrom.induct with
  | case1 cur => simp [layoutFrom]
  | case2 cur p => simp [layoutFrom]
  | case3 cur p q rest ih =>
      simp only [layoutFrom, List.length_cons, ih]
      omega

theorem imagesOn_append (a b : List DrawOp) :
    imagesOn (a ++ b) = imagesOn a + imagesOn b := by
  simp [imagesOn, List.countP_append]

theorem layoutFrom_imagesOn (cur : List DrawOp) (paths : List String) :
    (layoutFrom cur paths).all (fun pg => imagesOn pg ≤ imagesOn cur + 2) := by
  induction cur, paths using layoutFrom.induct with
  | case1 cur => simp [layoutFrom]
  | case2 cur p => simp [layoutFrom, imagesOn_append, imagesOn, imgOp]
  | case3 cur p q rest ih =>
      simp only [layoutFrom, List.all_cons, Bool.and_eq_true, decide_eq_true_eq]
      constructor
      · simp [imagesOn_append, imagesOn, imgOp]
      · simp only [List.all_eq_true] at ih ⊢
        intro pg hpg
        have := ih pg hpg
        simp only [decide_eq_true_eq] at this ⊢
        have hh : imagesOn [headerOp] = 0 := by simp [imagesOn, headerOp]
        omega

/-! ## Plot planner: structural lemmas -/

theorem pairsLT_of_le_one {n : Nat} (h : n ≤ 1) : pairsLT n = [] := by
  interval_cases n <;> rfl

theorem if_ne_nil_map (l : List String) (f : String → PlotRequest) :
    (if l ≠ [] then l.map f else []) = l.map f := by
  cases l <;> simp

theorem flatMap_eq_pairsLT {α : Type} (n : Nat) (F : Nat → Nat → α) :
    ((List.range n).flatMap (fun i =>
      (List.range' (i + 1) (n - (i + 1))).map (fun j => F i j)))
      = (pairsLT n).map (fun p => F p.1 p.2) := by
  rw [pairsLT, List.map_flatMap]
  congr 1
  funext a
  rw [List.map_map]
  rfl

/-- Normal form of the auto-generated plan: the redundant truthiness
guards around the histogram, scatter and pie loops are dropped and the
scatter double loop is expressed over `pairsLT`. -/
theorem plan_eq (schema : Schema) :
    auto_generate_plots schema =
      (numerical_cols schema).map (fun col =>
        ⟨PlotKind.histogram, [col], "histogram_" ++ col ++ ".png"⟩) ++
      (pairsLT (numerical_cols schema).length).map (fun p =>
        ⟨PlotKind.scatter,
         [(numerical_cols schema).getD p.1 "", (numerical_cols schema).getD p.2 ""],
         "scatter_" ++ (numerical_cols schema).getD p.1 "" ++ "vs" ++
           (numerical_cols schema).getD p.2 "" ++ ".png"⟩) ++
      (if numerical_cols schema ≠ [] then
        [⟨PlotKind.correlationHeatmap, numerical_cols schema, "correlation_heatmap.png"⟩]
      else []) ++
      (if numerical_cols schema ≠ [] then
        [⟨PlotKind.pairplot, numerical_cols schema, "pairplot.png"⟩]
      else []) ++
      (categorical_cols schema).map (fun col =>
        ⟨PlotKind.pieChart, [col], "pie_chart_" ++ col ++ ".png"⟩) := by
  unfold auto_generate_plots
  rw [if_ne_nil_map, if_ne_nil_map]
  by_cases h : 1 < (numerical_cols schema).length
  · rw [if_pos h, flatMap_eq_pairsLT (α := PlotRequest) (numerical_cols schema).length
      (fun i j =>
        ⟨PlotKind.scatter,
         [(numerical_cols schema).getD i "", (numerical_cols schema).getD j ""],
         "scatter_" ++ (numerical_cols schema).getD i "" ++ "vs" ++
           (numerical_cols schema).getD j "" ++ ".png"⟩)]
  · rw [if_neg h, pairsLT_of_le_one (by omega), List.map_nil]

theorem list_sum_range (f : Nat → Nat) (n : Nat) :
    ((List.range n).map f).sum = ∑ i ∈ Finset.range n, f i := by
  induction n with
  | zero => simp
  | succ n ih =>
      rw [List.range_succ, List.map_append, List.sum_append, Finset.sum_range_succ, ih]
      simp

theorem sum_ranges (k : Nat) :
    ((List.range k).map (fun i => k - (i + 1))).sum = k.choose 2 := by
  rw [list_sum_range]
  have h1 : ∑ i ∈ Finset.range k, (k - (i + 1)) = ∑ i ∈ Finset.range k, (k - 1 - i) :=
    Finset.sum_congr rfl (fun i _ => by omega)
  rw [h1, Finset.sum_range_reflect (fun j => j) k, Finset.sum_range_id,
    Nat.choose_two_right]

theorem pairsLT_length (k : Nat) : (pairsLT k).length = k.choose 2 := by
  rw [pairsLT, List.length_flatMap]
  have h : (List.map (List.length ∘ fun i =>
      (List.range' (i + 1) (k - (i + 1))).map (fun j => (i, j))) (List.range k))
      = (List.range k).map (fun i => k - (i + 1)) := by
    simp [Function.comp]
  rw [h, sum_ranges]

theorem mem_pairsLT {n i j : Nat} : (i, j) ∈ pairsLT n ↔ i < j ∧ j < n := by
  simp only [pairsLT, List.mem_flatMap, List.mem_map, List.mem_range, List.mem_range'_1,
    Prod.mk.injEq]
  constructor
  · rintro ⟨a, ha, b, ⟨hb1, hb2⟩, rfl, rfl⟩
    omega
  · rintro ⟨hij, hjn⟩
    exact ⟨i, by omega, j, ⟨by omega, by omega⟩, rfl, rfl⟩

theorem pairsLT_nodup (n : Nat) : (pairsLT n).Nodup := by
  rw [pairsLT, List.nodup_flatMap]
  constructor
  · intro i _
    exact (List.nodup_range' _ _).map (fun a b h => by
      simpa using congrArg Prod.snd h)
  · have h := List.pairwise_lt_range n
    refine h.imp ?_
    intro a b hab
    intro x hx hy
    simp only [Function.onFun, List.mem_map] at hx hy
    obtain ⟨j1, _, rfl⟩ := hx
    obtain ⟨j2, _, h2⟩ := hy
    have := congrArg Prod.fst h2
    simp at this
    omega

theorem plan_length (schema : Schema) :
    (auto_generate_plots schema).length =
      (numerical_cols schema).length + ((numerical_cols schema).length).choose 2 +
        (if 1 ≤ (numerical_cols schema).length then 2 else 0) +
        (categorical_cols schema).length := by
  rw [plan_eq]
  simp only [List.length_append, List.length_map, pairsLT_length]
  by_cases h : numerical_cols schema = []
  · rw [if_neg (by simp [h]), if_neg (by simp [h]), if_neg (by simp [h, List.length_eq_zero])]
    simp
  · rw [if_pos h, if_pos h, if_pos (by
      have := List.length_pos.mpr h
      omega)]
    simp

theorem map_kind_shape {α : Type} (l : List α) (k : PlotKind) (f : α → PlotRequest)
    (hf : ∀ c, (f c).kind = k) :
    List.map PlotRequest.kind (l.map f) = List.replicate l.length k := by
  induction l with
  | nil => rfl
  | cons a t ih => simp [List.replicate_succ, ih, hf]

theorem plan_kinds (schema : Schema) :
    (auto_generate_plots schema).map PlotRequest.kind =
      List.replicate (numerical_cols schema).length PlotKind.histogram ++
      List.replicate ((numerical_cols schema).length.choose 2) PlotKind.scatter ++
      (if numerical_cols schema ≠ [] then [PlotKind.correlationHeatmap, PlotKind.pairplot]
       else []) ++
      List.replicate (categorical_cols schema).length PlotKind.pieChart := by
  rw [plan_eq]
  simp only [List.map_append]
  rw [map_kind_shape _ PlotKind.histogram _ (fun c => rfl),
      map_kind_shape _ PlotKind.scatter _ (fun c => rfl),
      map_kind_shape _ PlotKind.pieChart _ (fun c => rfl),
      pairsLT_length]
  by_cases h : numerical_cols schema = []
  · simp [h]
  · simp [h]

theorem filter_kind_map_ne {α : Type} (l : List α) (f : α → PlotRequest) (k : PlotKind)
    (hf : ∀ c, (f c).kind ≠ k) :
    (l.map f).filter (fun r => r.kind = k) = [] := by
  induction l with
  | nil => rfl
  | cons a t ih =>
      have hd : decide ((f a).kind = k) = false := decide_eq_false (hf a)
      simp only [List.map_cons, List.filter_cons, hd, ih]
      simp

theorem filter_kind_map_eq {α : Type} (l : List α) (f : α → PlotRequest) (k : PlotKind)
    (hf : ∀ c, (f c).kind = k) :
    (l.map f).filter (fun r => r.kind = k) = l.map f := by
  apply List.filter_eq_self.mpr
  intro a ha
  obtain ⟨c, _, rfl⟩ := List.mem_map.mp ha
  simp [hf]

theorem plan_scatter_columns (schema : Schema) :
    ((auto_generate_plots schema).filter
        (fun r => r.kind = PlotKind.scatter)).map PlotRequest.columns
      = (pairsLT (numerical_cols schema).length).map (fun p =>
          [(numerical_cols schema).getD p.1 "", (numerical_cols schema).getD p.2 ""]) := by
  rw [plan_eq]
  simp only [List.filter_append]
  rw [filter_kind_map_ne _ _ _ (fun c => by simp),
     filter_kind_map_eq (pairsLT (numerical_cols schema).length)
       (fun p =>
         ⟨PlotKind.scatter,
          [(numerical_cols schema).getD p.1 "", (numerical_cols schema).getD p.2 ""],
          "scatter_" ++ (numerical_cols schema).getD p.1 "" ++ "vs" ++
            (numerical_cols schema).getD p.2 "" ++ ".png"⟩)
       PlotKind.scatter (fun c => rfl),
     filter_kind_map_ne _ _ _ (fun c => by simp)]
  have h1 : ∀ cond : Prop, ∀ inst : Decidable cond,
      (if cond then
        [(⟨PlotKind.correlationHeatmap, numerical_cols schema,
            "correlation_heatmap.png"⟩ : PlotRequest)]
      else []).filter (fun r => r.kind = PlotKind.scatter) = [] := by
    intro cond inst
    split <;> simp
  have h2 : ∀ cond : Prop, ∀ inst : Decidable cond,
      (if cond then
        [(⟨PlotKind.pairplot, numerical_cols schema, "pairplot.png"⟩ : PlotRequest)]
      else []).filter (fun r => r.kind = PlotKind.scatter) = [] := by
    intro cond inst
    split <;> simp
  rw [h1, h2]
  simp [List.map_map]

theorem countP_kind_map_ne {α : Type} (l : List α) (f : α → PlotRequest) (k : PlotKind)
    (hf : ∀ c, (f c).kind ≠ k) :
    (l.map f).countP (fun r => r.kind = k) = 0 := by
  rw [List.countP_eq_length_filter, filter_kind_map_ne _ _ _ hf]
  rfl

theorem plan_countP_heatmap (schema : Schema) :
    (auto_generate_plots schema).countP (fun r => r.kind = PlotKind.correlationHeatmap) =
      if numerical_cols schema ≠ [] then 1 else 0 := by
  rw [plan_eq]
  simp only [List.countP_append]
  rw [countP_kind_map_ne _ _ _ (fun c => by simp),
     countP_kind_map_ne _ _ _ (fun c => by simp),
     countP_kind_map_ne _ _ _ (fun c => by simp)]
  by_cases h : numerical_cols schema = [] <;> simp [h]

theorem plan_countP_pairplot (schema : Schema) :
    (auto_generate_plots schema).countP (fun r => r.kind = PlotKind.pairplot) =
      if numerical_cols schema ≠ [] then 1 else 0 := by
  rw [plan_eq]
  simp only [List.countP_append]
  rw [countP_kind_map_ne _ _ _ (fun c => by simp),
     countP_kind_map_ne _ _ _ (fun c => by simp),
     countP_kind_map_ne _ _ _ (fun c => by simp)]
  by_cases h : numerical_cols schema = [] <;> simp [h]


/-! ## Error-handling lemmas -/

theorem renderAll_ok (render : PlotRequest → Except RenderError Unit)
    (rs : List PlotRequest) (h : ∀ r ∈ rs, render r = Except.ok ()) :
    renderAll render rs = Except.ok (rs.map PlotRequest.artifact_name) := by
  induction rs with
  | nil => rfl
  | cons r t ih =>
      have hr : render r = Except.ok () := h r (by simp)
      rw [renderAll, hr, ih (fun x hx => h x (by simp [hx]))]
      rfl

theorem renderAll_error (render : PlotRequest → Except RenderError Unit)
    (rs : List PlotRequest) (e : RenderError) (r : PlotRequest)
    (hmem : r ∈ rs) (hr : render r = Except.error e) :
    ∃ e2 : RenderError, renderAll render rs = Except.error e2 := by
  induction rs with
  | nil => simp at hmem
  | cons a t ih =>
      rw [renderAll]
      cases ha : render a with
      | error e3 => exact ⟨e3, rfl⟩
      | ok u =>
          rcases List.mem_cons.mp hmem with h1 | h1
          · rw [h1] at hr
            rw [hr] at ha
            exact absurd ha (by simp)
          · obtain ⟨e2, h2⟩ := ih h1
            rw [h2]
            exact ⟨e2, rfl⟩

theorem removeAll_ok (removeFile : String → Except String Unit)
    (ps : List String) (h : ∀ p ∈ ps, removeFile p = Except.ok ()) :
    removeAll removeFile ps = (ps, none) := by
  induction ps with
  | nil => rfl
  | cons p t ih =>
      have hp : removeFile p = Except.ok () := h p (by simp)
      rw [removeAll, hp, ih (fun x hx => h x (by simp [hx]))]

/-! ## Artifact-name lemmas -/

theorem mem_if_singleton {α : Type} {c : Prop} [Decidable c] {x a : α}
    (h : a ∈ (if c then [x] else [])) : a = x := by
  split at h
  · simpa using h
  · simp at h

/-- Splitting a character list at a `vs` separator is unambiguous when
the part before the separator contains no `v`. -/
theorem vsSplit (x1 : List Char) : ∀ (x2 : List Char) {y1 y2 : List Char},
    'v' ∉ x1 → 'v' ∉ x2 →
    x1 ++ 'v' :: 's' :: y1 = x2 ++ 'v' :: 's' :: y2 → x1 = x2 ∧ y1 = y2 := by
  induction x1 with
  | nil =>
      intro x2 y1 y2 _ h2 h
      cases x2 with
      | nil =>
          simp at h
          exact ⟨rfl, h⟩
      | cons d t =>
          simp only [List.nil_append, List.cons_append, List.cons.injEq] at h
          exact absurd (h.1 ▸ List.mem_cons_self d t) (h.1 ▸ h2)
  | cons c t ih =>
      intro x2 y1 y2 h1 h2 h
      cases x2 with
      | nil =>
          simp only [List.nil_append, List.cons_append, List.cons.injEq] at h
          exact absurd (h.1 ▸ List.mem_cons_self c t) (fun hm => h1 (h.1 ▸ hm))
      | cons d t2 =>
          simp only [List.cons_append, List.cons.injEq] at h
          obtain ⟨hcd, hrest⟩ := h
          have := ih t2 (fun hm => h1 (List.mem_cons_of_mem c hm))
            (fun hm => h2 (List.mem_cons_of_mem d hm)) hrest
          exact ⟨by rw [hcd, this.1], this.2⟩

theorem scatter_name_inj {x1 y1 x2 y2 : String}
    (hx1 : 'v' ∉ x1.data) (hx2 : 'v' ∉ x2.data)
    (h : "scatter_" ++ x1 ++ "vs" ++ y1 ++ ".png" = "scatter_" ++ x2 ++ "vs" ++ y2 ++ ".png") :
    x1 = x2 ∧ y1 = y2 := by
  have hd := congrArg String.data h
  simp only [String.data_append, List.append_assoc] at hd
  have hd2 := List.append_cancel_left hd
  have e1 : ∀ z p : List Char, "vs".data ++ (z ++ p) = 'v' :: 's' :: (z ++ p) := fun _ _ => rfl
  rw [e1, e1] at hd2
  obtain ⟨ha, hb⟩ := vsSplit x1.data x2.data hx1 hx2 hd2
  exact ⟨String.ext ha, String.ext (List.append_cancel_right hb)⟩

theorem nameKey_hist (c : String) : nameKey ("histogram_" ++ c ++ ".png") = ('h', 'i') := by
  rw [nameKey, String.data_append, String.data_append]
  rfl

theorem nameKey_scatter (x y : String) :
    nameKey ("scatter_" ++ x ++ "vs" ++ y ++ ".png") = ('s', 'c') := by
  rw [nameKey, String.data_append, String.data_append, String.data_append,
    String.data_append]
  rfl

theorem nameKey_pie (c : String) : nameKey ("pie_chart_" ++ c ++ ".png") = ('p', 'i') := by
  rw [nameKey, String.data_append, String.data_append]
  rfl

theorem nameKey_heat : nameKey "correlation_heatmap.png" = ('c', 'o') := rfl

theorem nameKey_pair : nameKey "pairplot.png" = ('p', 'a') := rfl

theorem disjoint_of_nameKey {l1 l2 : List String} {k1 k2 : Char × Char}
    (h1 : ∀ s ∈ l1, nameKey s = k1) (h2 : ∀ s ∈ l2, nameKey s = k2) (hk : k1 ≠ k2) :
    l1.Disjoint l2 := by
  intro a ha hb
  exact hk (((h1 a ha).symm).trans (h2 a hb))

theorem hist_name_inj {c1 c2 : String}
    (h : "histogram_" ++ c1 ++ ".png" = "histogram_" ++ c2 ++ ".png") : c1 = c2 := by
  have hd := congrArg String.data h
  simp only [String.data_append, List.append_assoc] at hd
  exact String.ext (List.append_cancel_right (List.append_cancel_left hd))

theorem pie_name_inj {c1 c2 : String}
    (h : "pie_chart_" ++ c1 ++ ".png" = "pie_chart_" ++ c2 ++ ".png") : c1 = c2 := by
  have hd := congrArg String.data h
  simp only [String.data_append, List.append_assoc] at hd
  exact String.ext (List.append_cancel_right (List.append_cancel_left hd))

theorem nodup_getD_inj {l : List String} (h : l.Nodup) {i j : Nat}
    (hi : i < l.length) (hj : j < l.length) (d : String)
    (he : l.getD i d = l.getD j d) : i = j := by
  rw [List.getD_eq_getElem l d hi, List.getD_eq_getElem l d hj] at he
  have := (List.Nodup.get_inj_iff h (i := ⟨i, hi⟩) (j := ⟨j, hj⟩)).mp he
  exact congrArg Fin.val this

/-- Artifact names of an auto-generated plan are pairwise distinct,
provided the schema column names are pairwise distinct and no numerical
column name contains the character `v` (names embedding `vs` can make
two scatter names collide). -/
theorem plan_names_nodup (schema : Schema)
    (hnd : (schema.map Prod.fst).Nodup)
    (hv : ∀ c ∈ numerical_cols schema, 'v' ∉ c.data) :
    ((auto_generate_plots schema).map PlotRequest.artifact_name).Nodup := by
  have hplan : (auto_generate_plots schema).map PlotRequest.artifact_name =
      (numerical_cols schema).map (fun col => "histogram_" ++ col ++ ".png") ++
      ((pairsLT (numerical_cols schema).length).map (fun p =>
        "scatter_" ++ (numerical_cols schema).getD p.1 "" ++ "vs" ++
          (numerical_cols schema).getD p.2 "" ++ ".png") ++
      ((if numerical_cols schema ≠ [] then ["correlation_heatmap.png"] else []) ++
      ((if numerical_cols schema ≠ [] then ["pairplot.png"] else []) ++
      (categorical_cols schema).map (fun col => "pie_chart_" ++ col ++ ".png")))) := by
    rw [plan_eq]
    simp only [List.map_append, List.map_map,
      apply_ite (List.map PlotRequest.artifact_name), List.map_cons, List.map_nil,
      List.append_assoc]
    rfl
  rw [hplan]
  have hn1 : (numerical_cols schema).Nodup :=
    List.Nodup.sublist ((List.filter_sublist schema).map Prod.fst) hnd
  have hc1 : (categorical_cols schema).Nodup :=
    List.Nodup.sublist ((List.filter_sublist schema).map Prod.fst) hnd
  have khist : ∀ s ∈ (numerical_cols schema).map (fun col => "histogram_" ++ col ++ ".png"),
      nameKey s = ('h', 'i') := by
    intro s hs
    obtain ⟨c, _, rfl⟩ := List.mem_map.mp hs
    exact nameKey_hist c
  have kscat : ∀ s ∈ (pairsLT (numerical_cols schema).length).map (fun p =>
      "scatter_" ++ (numerical_cols schema).getD p.1 "" ++ "vs" ++
        (numerical_cols schema).getD p.2 "" ++ ".png"),
      nameKey s = ('s', 'c') := by
    intro s hs
    obtain ⟨p, _, rfl⟩ := List.mem_map.mp hs
    exact nameKey_scatter _ _
  have kheat : ∀ s ∈ (if numerical_cols schema ≠ [] then ["correlation_heatmap.png"] else []),
      nameKey s = ('c', 'o') := by
    intro s hs
    rw [mem_if_singleton hs]
    exact nameKey_heat
  have kpair : ∀ s ∈ (if numerical_cols schema ≠ [] then ["pairplot.png"] else []),
      nameKey s = ('p', 'a') := by
    intro s hs
    rw [mem_if_singleton hs]
    exact nameKey_pair
  have kpie : ∀ s ∈ (categorical_cols schema).map (fun col => "pie_chart_" ++ col ++ ".png"),
      nameKey s = ('p', 'i') := by
    intro s hs
    obtain ⟨c, _, rfl⟩ := List.mem_map.mp hs
    exact nameKey_pie c
  have nhist : ((numerical_cols schema).map (fun col => "histogram_" ++ col ++ ".png")).Nodup :=
    List.Nodup.map_on (fun x _ y _ h => hist_name_inj h) hn1
  have npie : ((categorical_cols schema).map (fun col => "pie_chart_" ++ col ++ ".png")).Nodup :=
    List.Nodup.map_on (fun x _ y _ h => pie_name_inj h) hc1
  have nscat : ((pairsLT (numerical_cols schema).length).map (fun p =>
      "scatter_" ++ (numerical_cols schema).getD p.1 "" ++ "vs" ++
        (numerical_cols schema).getD p.2 "" ++ ".png")).Nodup := by
    apply List.Nodup.map_on ?_ (pairsLT_nodup _)
    rintro ⟨i1, j1⟩ hp ⟨i2, j2⟩ hq h
    obtain ⟨hij1, hj1⟩ := mem_pairsLT.mp hp
    obtain ⟨hij2, hj2⟩ := mem_pairsLT.mp hq
    have hi1 : i1 < (numerical_cols schema).length := by omega
    have hi2 : i2 < (numerical_cols schema).length := by omega
    have hv1 : 'v' ∉ ((numerical_cols schema).getD i1 "").data := by
      apply hv
      rw [List.getD_eq_getElem _ _ hi1]
      exact List.getElem_mem hi1
    have hv2 : 'v' ∉ ((numerical_cols schema).getD i2 "").data := by
      apply hv
      rw [List.getD_eq_getElem _ _ hi2]
      exact List.getElem_mem hi2
    obtain ⟨hx, hy⟩ := scatter_name_inj hv1 hv2 h
    have e1 : i1 = i2 := nodup_getD_inj hn1 hi1 hi2 "" hx
    have e2 : j1 = j2 := nodup_getD_inj hn1 hj1 hj2 "" hy
    rw [e1, e2]
  have nheat : (if numerical_cols schema ≠ [] then ["correlation_heatmap.png"] else []).Nodup := by
    split <;> simp
  have npair : (if numerical_cols schema ≠ [] then ["pairplot.png"] else []).Nodup := by
    split <;> simp
  refine List.nodup_append.mpr ⟨nhist, ?_, ?_⟩
  · refine List.nodup_append.mpr ⟨nscat, ?_, ?_⟩
    · refine List.nodup_append.mpr ⟨nheat, ?_, ?_⟩
      · refine List.nodup_append.mpr ⟨npair, npie, ?_⟩
        · exact disjoint_of_nameKey kpair kpie (by decide)
      · rw [List.disjoint_append_right]
        exact ⟨disjoint_of_nameKey kheat kpair (by decide),
               disjoint_of_nameKey kheat kpie (by decide)⟩
    · rw [List.disjoint_append_right, List.disjoint_append_right]
      exact ⟨disjoint_of_nameKey kscat kheat (by decide),
             disjoint_of_nameKey kscat kpair (by decide),
             disjoint_of_nameKey kscat kpie (by decide)⟩
  · rw [List.disjoint_append_right, List.disjoint_append_right,
      List.disjoint_append_right]
    exact ⟨disjoint_of_nameKey khist kscat (by decide),
           disjoint_of_nameKey khist kheat (by decide),
           disjoint_of_nameKey khist kpair (by decide),
           disjoint_of_nameKey khist kpie (by decide)⟩

/-- Every request of an auto-generated plan is named by the fixed
pattern of its kind. -/
theorem plan_name_pattern (schema : Schema) :
    ∀ r ∈ auto_generate_plots schema, nameMatches r := by
  intro r hr
  rw [plan_eq] at hr
  simp only [List.mem_append] at hr
  rcases hr with ((((h | h) | h) | h) | h)
  · obtain ⟨c, _, rfl⟩ := List.mem_map.mp h
    exact ⟨c, rfl, rfl⟩
  · obtain ⟨p, _, rfl⟩ := List.mem_map.mp h
    exact ⟨_, _, rfl, rfl⟩
  · rw [mem_if_singleton h]
    exact rfl
  · rw [mem_if_singleton h]
    exact rfl
  · obtain ⟨c, _, rfl⟩ := List.mem_map.mp h
    exact ⟨c, rfl, rfl⟩


/-! ## Claim theorems -/

/-- C1: the pagination engine starts page 1 with the header and cursor
642 = 792 - 150; each artifact is drawn at left margin 100 with width
400 and height 300, after which the cursor decreases by 350; strictly
after each placement, a cursor below 100 starts a new page with the
header redrawn and the cursor reset to 642 — including when the tripping
artifact was the last one, producing a final header-only page.  The loop
equals the closed-form layout `expectedReport`, and on two artifacts
(the second trips the threshold last) the output ends in a header-only
page. -/
theorem C1_pagination_check_after_place :
    (∀ plot_paths : List String, generate_pdf_report plot_paths = expectedReport plot_paths) ∧
    generate_pdf_report ["a", "b"] =
      [[headerOp, imgOp "a" 642, imgOp "b" 292], [headerOp]] :=
  ⟨generate_eq_expected, by decide⟩

/-- C2: for every schema with k numerical and m categorical columns the
auto plan has length k + C(k,2) + (2 if k ≥ 1 else 0) + m; when both
classifications are empty the plan is the empty list (no error). -/
theorem C2_plan_length_formula :
    (∀ schema : Schema, (auto_generate_plots schema).length =
        (numerical_cols schema).length + ((numerical_cols schema).length).choose 2 +
          (if 1 ≤ (numerical_cols schema).length then 2 else 0) +
          (categorical_cols schema).length) ∧
    (∀ schema : Schema, numerical_cols schema = [] → categorical_cols schema = [] →
        auto_generate_plots schema = []) := by
  constructor
  · exact plan_length
  · intro schema h1 h2
    rw [plan_eq, h1, h2]
    simp [pairsLT]

/-- Witness for C2: a schema with a single unsupported column has no
numerical and no categorical columns, and its plan is empty. -/
theorem C2_plan_length_formula_witness :
    numerical_cols [("ts", ColKind.other)] = [] ∧
    categorical_cols [("ts", ColKind.other)] = [] ∧
    auto_generate_plots [("ts", ColKind.other)] = [] :=
  ⟨rfl, rfl, C2_plan_length_formula.2 [("ts", ColKind.other)] rfl rfl⟩

/-- C3: the scatter requests of an auto plan are exactly the pairs
(col_i, col_j) for the index pairs i < j of the numerical columns in the
loop order (outer i, inner j > i); those index pairs are exactly the
(i, j) with i < j < k, without duplicates; and heatmap and pairplot each
occur at most once per plan. -/
theorem C3_scatter_pair_coverage (schema : Schema) :
    ((auto_generate_plots schema).filter
        (fun r => r.kind = PlotKind.scatter)).map PlotRequest.columns
      = (pairsLT (numerical_cols schema).length).map (fun p =>
          [(numerical_cols schema).getD p.1 "", (numerical_cols schema).getD p.2 ""]) ∧
    (∀ i j : Nat, (i, j) ∈ pairsLT (numerical_cols schema).length ↔
        i < j ∧ j < (numerical_cols schema).length) ∧
    (pairsLT (numerical_cols schema).length).Nodup ∧
    (auto_generate_plots schema).countP (fun r => r.kind = PlotKind.correlationHeatmap) ≤ 1 ∧
    (auto_generate_plots schema).countP (fun r => r.kind = PlotKind.pairplot) ≤ 1 :=
  ⟨plan_scatter_columns schema, fun _ _ => mem_pairsLT, pairsLT_nodup _,
   by rw [plan_countP_heatmap]; split <;> omega,
   by rw [plan_countP_pairplot]; split <;> omega⟩

/-- C4: the auto plan is ordered histograms, scatters, heatmap then
pairplot (present exactly when there is a numerical column), pies; on
the schema age:numeric, income:numeric, city:categorical it is exactly
the six requests of the spec example, in order. -/
theorem C4_plan_order :
    (∀ schema : Schema, (auto_generate_plots schema).map PlotRequest.kind =
        List.replicate (numerical_cols schema).length PlotKind.histogram ++
        List.replicate ((numerical_cols schema).length.choose 2) PlotKind.scatter ++
        (if numerical_cols schema ≠ [] then [PlotKind.correlationHeatmap, PlotKind.pairplot]
         else []) ++
        List.replicate (categorical_cols schema).length PlotKind.pieChart) ∧
    auto_generate_plots
        [("age", ColKind.numerical), ("income", ColKind.numerical),
         ("city", ColKind.categorical)]
      = [⟨PlotKind.histogram, ["age"], "histogram_age.png"⟩,
         ⟨PlotKind.histogram, ["income"], "histogram_income.png"⟩,
         ⟨PlotKind.scatter, ["age", "income"], "scatter_agevsincome.png"⟩,
         ⟨PlotKind.correlationHeatmap, ["age", "income"], "correlation_heatmap.png"⟩,
         ⟨PlotKind.pairplot, ["age", "income"], "pairplot.png"⟩,
         ⟨PlotKind.pieChart, ["city"], "pie_chart_city.png"⟩] :=
  ⟨plan_kinds, by decide⟩

/-- C5 counterexample: on a five-request plan where exactly one request
(the scatter) fails to render, no document is assembled at all — the
claim that the document is still assembled from the other four artifacts
is false of the code, which has no per-request error handling. -/
theorem C5_counterexample :
    (auto_generate_plots schemaAI).length = 5 ∧
    (auto_generate_plots schemaAI).countP (fun r => !(badRender r).isOk) = 1 ∧
    (main_choice3 badRender okRemove schemaAI).document = none :=
  ⟨by decide, by decide, rfl⟩

/-- C5 amended: a render failure on any request of the plan propagates
and aborts the whole run — no document is assembled; only when every
request renders successfully is the document assembled from all
artifacts in plan order. -/
theorem C5_render_failure_aborts_plan (render : PlotRequest → Except RenderError Unit)
    (removeFile : String → Except String Unit) (schema : Schema) :
    ((∀ r ∈ auto_generate_plots schema, render r = Except.ok ()) →
      (main_choice3 render removeFile schema).document =
        some (generate_pdf_report
          ((auto_generate_plots schema).map PlotRequest.artifact_name))) ∧
    (∀ (e : RenderError) (r : PlotRequest), r ∈ auto_generate_plots schema →
      render r = Except.error e →
      (main_choice3 render removeFile schema).document = none) := by
  constructor
  · intro h
    rw [main_choice3, renderAll_ok render _ h]
  · intro e r hmem hr
    obtain ⟨e2, h2⟩ := renderAll_error render _ e r hmem hr
    rw [main_choice3, h2]

/-- Witness for C5: the fully successful renderer yields the assembled
document; the renderer failing on the scatter request yields none. -/
theorem C5_render_failure_aborts_plan_witness :
    (main_choice3 okRender okRemove schemaAI).document =
      some (generate_pdf_report ((auto_generate_plots schemaAI).map PlotRequest.artifact_name)) ∧
    (main_choice3 badRender okRemove schemaAI).document = none :=
  ⟨(C5_render_failure_aborts_plan okRender okRemove schemaAI).1 (fun _ _ => rfl),
   (C5_render_failure_aborts_plan badRender okRemove schemaAI).2 ⟨"RenderError"⟩
     ⟨PlotKind.scatter, ["age", "income"], "scatter_agevsincome.png"⟩ (by decide) rfl⟩

/-- C6 counterexample: on the all-numerical schema a, avsb, bvsc, c the
scatter requests for the pairs (a, bvsc) and (avsb, c) carry different
column lists but the same artifact name `scatter_avsbvsc.png`, so the
artifact names of the plan are not pairwise distinct — naming is not
collision-resistant. -/
theorem C6_counterexample :
    ((auto_generate_plots schemaVS).getD 5 ⟨PlotKind.histogram, [], ""⟩).artifact_name =
      ((auto_generate_plots schemaVS).getD 8 ⟨PlotKind.histogram, [], ""⟩).artifact_name ∧
    ((auto_generate_plots schemaVS).getD 5 ⟨PlotKind.histogram, [], ""⟩).columns ≠
      ((auto_generate_plots schemaVS).getD 8 ⟨PlotKind.histogram, [], ""⟩).columns ∧
    ¬ ((auto_generate_plots schemaVS).map PlotRequest.artifact_name).Nodup :=
  ⟨by decide, by decide, by decide⟩

/-- C6 amended: artifact naming is deterministic and follows the fixed
pattern of each kind (with the `.png` extension); identical schemas give
identical plans and names; and the names of a plan are pairwise distinct
provided the schema column names are distinct and no numerical column
name contains the character `v` (so the `vs` separator cannot be forged,
which the counterexample exploits). -/
theorem C6_naming_deterministic :
    (∀ schema : Schema, ∀ r ∈ auto_generate_plots schema, nameMatches r) ∧
    (∀ s1 s2 : Schema, s1 = s2 →
      (auto_generate_plots s1).map PlotRequest.artifact_name =
        (auto_generate_plots s2).map PlotRequest.artifact_name ∧
      auto_generate_plots s1 = auto_generate_plots s2) ∧
    (∀ schema : Schema, (schema.map Prod.fst).Nodup →
      (∀ c ∈ numerical_cols schema, 'v' ∉ c.data) →
      ((auto_generate_plots schema).map PlotRequest.artifact_name).Nodup) :=
  ⟨plan_name_pattern,
   fun s1 s2 h => by rw [h]; exact ⟨rfl, rfl⟩,
   plan_names_nodup⟩

/-- Witness for C6: the naming pattern holds for the first request of a
one-column schema, and the six-request example plan has pairwise
distinct artifact names. -/
theorem C6_naming_deterministic_witness :
    nameMatches ⟨PlotKind.histogram, ["age"], "histogram_age.png"⟩ ∧
    ((auto_generate_plots
        [("age", ColKind.numerical), ("income", ColKind.numerical),
         ("city", ColKind.categorical)]).map PlotRequest.artifact_name).Nodup :=
  ⟨C6_naming_deterministic.1 [("age", ColKind.numerical)]
      ⟨PlotKind.histogram, ["age"], "histogram_age.png"⟩ (by decide),
   C6_naming_deterministic.2.2
      [("age", ColKind.numerical), ("income", ColKind.numerical),
       ("city", ColKind.categorical)] (by decide) (by decide)⟩

/-- C7 counterexample: with the fixed geometry at most two artifacts are
drawn per page, so the per-page capacity P is 2; yet with N = P = 2 the
engine does start a further page — the document has two pages and the
second holds only the header. -/
theorem C7_counterexample :
    imagesOn ((generate_pdf_report ["a", "b"]).getD 0 []) = 2 ∧
    (generate_pdf_report ["a", "b"]).length = 2 ∧
    (generate_pdf_report ["a", "b"]).getD 1 [] = [headerOp] :=
  ⟨by decide, by decide, by decide⟩

/-- C7 amended: pages hold at most P = 2 artifacts and paginating N
artifacts yields N / 2 + 1 pages, so with N = P the engine does start a
trailing header-only page (the P-th artifact trips the check-after-place
threshold), and with N = P + 1 = 3 the third artifact opens the second
page and no further page is started (two pages in total). -/
theorem C7_page_count :
    (∀ plot_paths : List String,
        (generate_pdf_report plot_paths).length = plot_paths.length / 2 + 1 ∧
        (generate_pdf_report plot_paths).all (fun pg => decide (imagesOn pg ≤ 2)) = true) ∧
    (generate_pdf_report ["a", "b", "c"]).length = 2 ∧
    (generate_pdf_report ["a", "b", "c"]).getD 1 [] = [headerOp, imgOp "c" 642] := by
  refine ⟨fun paths => ⟨?_, ?_⟩, by decide, by decide⟩
  · rw [generate_eq_expected, expectedReport, layoutFrom_length]
  · rw [generate_eq_expected, expectedReport]
    have h := layoutFrom_imagesOn [headerOp] paths
    have hh : imagesOn [headerOp] = 0 := by simp [imagesOn, headerOp]
    simp only [hh, Nat.zero_add] at h
    exact h

/-- C8 counterexample: requesting a histogram (or scatter) on a column
absent from the schema fails with the fixed printed message, which does
not contain the missing column name — the operation does not report a
`ColumnNotFoundError` naming the column. -/
theorem C8_counterexample :
    specific_plot [("age", ColKind.numerical)] (SpecificPlot.histogram "height")
      = Except.error "Column not found." ∧
    ¬ List.IsInfix "height".data "Column not found.".data ∧
    specific_plot [("age", ColKind.numerical)] (SpecificPlot.scatter "age" "height")
      = Except.error "One or both columns not found." ∧
    ¬ List.IsInfix "height".data "One or both columns not found.".data :=
  ⟨rfl, by decide, rfl, by decide⟩

/-- C8 amended: single-request mode validates that every column named in
the request exists in the schema; when one is missing it fails with the
fixed generic message (without naming the column) and generates no plot,
otherwise it yields exactly the one requested plot. -/
theorem C8_single_request_validation (schema : Schema) (c x y : String) :
    (hasColumn schema c = false →
      specific_plot schema (SpecificPlot.histogram c) = Except.error "Column not found." ∧
      specific_plot schema (SpecificPlot.pieChart c) = Except.error "Column not found.") ∧
    ((hasColumn schema x = false ∨ hasColumn schema y = false) →
      specific_plot schema (SpecificPlot.scatter x y) =
        Except.error "One or both columns not found.") ∧
    (hasColumn schema c = true →
      specific_plot schema (SpecificPlot.histogram c) =
        Except.ok ⟨PlotKind.histogram, [c], "histogram_" ++ c ++ ".png"⟩ ∧
      specific_plot schema (SpecificPlot.pieChart c) =
        Except.ok ⟨PlotKind.pieChart, [c], "pie_chart_" ++ c ++ ".png"⟩) ∧
    (hasColumn schema x = true → hasColumn schema y = true →
      specific_plot schema (SpecificPlot.scatter x y) =
        Except.ok ⟨PlotKind.scatter, [x, y], "scatter_" ++ x ++ "vs" ++ y ++ ".png"⟩) := by
  refine ⟨?_, ?_, ?_, ?_⟩
  · intro h
    constructor <;> simp [specific_plot, h]
  · intro h
    rcases h with h | h <;> simp [specific_plot, h]
  · intro h
    constructor <;> simp [specific_plot, h]
  · intro hx hy
    simp [specific_plot, hx, hy]

/-- Witness for C8: on the one-column schema age, a histogram request on
the missing column height fails with the generic message, while
histogram and scatter requests on age succeed with one-element plans. -/
theorem C8_single_request_validation_witness :
    specific_plot [("age", ColKind.numerical)] (SpecificPlot.histogram "height")
      = Except.error "Column not found." ∧
    specific_plot [("age", ColKind.numerical)] (SpecificPlot.histogram "age")
      = Except.ok ⟨PlotKind.histogram, ["age"], "histogram_age.png"⟩ ∧
    specific_plot [("age", ColKind.numerical)] (SpecificPlot.scatter "age" "age")
      = Except.ok ⟨PlotKind.scatter, ["age", "age"], "scatter_agevsage.png"⟩ :=
  ⟨((C8_single_request_validation [("age", ColKind.numerical)] "height" "age" "age").1 rfl).1,
   ((C8_single_request_validation [("age", ColKind.numerical)] "age" "age" "age").2.2.1 rfl).1,
   (C8_single_request_validation [("age", ColKind.numerical)] "age" "age" "age").2.2.2 rfl rfl⟩

/-- C9 counterexample: when one render fails, no artifact is removed at
all (cleanup does not run on the partial-failure path); and when
deletion itself fails, the error propagates as an uncaught exception and
no artifact is removed — deletion failures are fatal, not logged. -/
theorem C9_counterexample :
    ((main_choice3 badRender okRemove schemaAI).removed = [] ∧
      (main_choice3 badRender okRemove schemaAI).err = some "RenderError") ∧
    ((main_choice3 okRender badRemove schemaAI).err = some "PermissionError" ∧
      (main_choice3 okRender badRemove schemaAI).removed = [] ∧
      (main_choice3 okRender badRemove schemaAI).document.isSome = true) :=
  ⟨⟨rfl, rfl⟩, ⟨rfl, rfl, rfl⟩⟩

/-- C9 amended: artifacts are removed only after the document is
finalized, but cleanup runs only on the success path: a render failure
leaves the document unproduced and removes nothing; when every render
and removal succeeds all artifacts are removed with no error; and a
failing removal of the first artifact aborts the cleanup loop with the
propagated error, removing nothing. -/
theorem C9_cleanup_success_path_only (render : PlotRequest → Except RenderError Unit)
    (removeFile : String → Except String Unit) (schema : Schema) :
    ((main_choice3 render removeFile schema).removed ≠ [] →
      (main_choice3 render removeFile schema).document.isSome = true) ∧
    (∀ e : RenderError, renderAll render (auto_generate_plots schema) = Except.error e →
      (main_choice3 render removeFile schema).document = none ∧
      (main_choice3 render removeFile schema).removed = []) ∧
    (∀ paths : List String, renderAll render (auto_generate_plots schema) = Except.ok paths →
      ((∀ p ∈ paths, removeFile p = Except.ok ()) →
        (main_choice3 render removeFile schema).document = some (generate_pdf_report paths) ∧
        (main_choice3 render removeFile schema).removed = paths ∧
        (main_choice3 render removeFile schema).err = none) ∧
      (∀ (e : String) (p : String) (ps : List String), paths = p :: ps →
        removeFile p = Except.error e →
        (main_choice3 render removeFile schema).removed = [] ∧
        (main_choice3 render removeFile schema).err = some e)) := by
  cases hra : renderAll render (auto_generate_plots schema) with
  | error e =>
      refine ⟨?_, ?_, ?_⟩
      · intro h
        rw [main_choice3, hra] at h
        simp at h
      · intro e2 _
        rw [main_choice3, hra]
        exact ⟨rfl, rfl⟩
      · intro paths hp
        exact absurd hp (by simp)
  | ok paths =>
      refine ⟨?_, ?_, ?_⟩
      · intro _
        rw [main_choice3, hra]
        rfl
      · intro e2 he2
        exact absurd he2 (by simp)
      · intro ps hps
        have hps2 : paths = ps := Except.ok.inj hps
        subst hps2
        constructor
        · intro hall
          simp only [main_choice3, hra]
          rw [removeAll_ok removeFile _ hall]
          simp
        · intro e p ps2 hcons hbad
          subst hcons
          simp only [main_choice3, hra, removeAll, hbad]
          simp

/-- Witness for C9: with every render and removal succeeding on the
five-request schema, the document is produced, all five artifact files
are removed and no error is raised. -/
theorem C9_cleanup_success_path_only_witness :
    (main_choice3 okRender okRemove schemaAI).document =
        some (generate_pdf_report ["histogram_age.png", "histogram_income.png",
          "scatter_agevsincome.png", "correlation_heatmap.png", "pairplot.png"]) ∧
    (main_choice3 okRender okRemove schemaAI).removed =
        ["histogram_age.png", "histogram_income.png", "scatter_agevsincome.png",
         "correlation_heatmap.png", "pairplot.png"] ∧
    (main_choice3 okRender okRemove schemaAI).err = none :=
  ((C9_cleanup_success_path_only okRender okRemove schemaAI).2.2
      ["histogram_age.png", "histogram_income.png", "scatter_agevsincome.png",
       "correlation_heatmap.png", "pairplot.png"] rfl).1 (fun _ _ => rfl)

/-- C10: on an empty artifact list the pagination engine produces a
single page holding only the fixed title header: no artifact placed and
no page break emitted. -/
theorem C10_empty_artifact_list :
    generate_pdf_report [] = [[headerOp]] ∧ imagesOn [headerOp] = 0 :=
  ⟨rfl, rfl⟩

end DataViz
